import Mathlib

/-!
Shallow embedding of the stwdo-dorm-bot repository (src/main.py, src/monitor.py,
src/app.py), faithful to the Python source.

Modelling conventions:
* Python strings are `List Char`.
* `hashlib.md5` is an external library call; it is modelled as an arbitrary
  function parameter `md5 : List Char → List Char` (the code only ever compares
  hashes for equality).
* `BeautifulSoup` parsing is an external library call; its outputs that the
  code consumes (`soup.get_text()`, the list of `<a href>` links with their
  text, the number of forms and of input elements) are carried by the `Page`
  structure.
* `datetime.now()` is an external input, threaded as a `now : List Char`
  parameter.
* The Python confidence score is a float whose increments are all multiples of
  0.5 (3, 4, 3, 2, 1, 2, 2, 1, 1, 0.5), hence exactly representable; it is
  modelled in half-points: `score2 : Nat` is twice the Python score, the
  threshold `confidence_score >= 3` becomes `6 ≤ score2`.
* Network and clock effects (requests.post, time.sleep) are modelled by
  outcome oracles passed as parameters.
* A Python exception is modelled with `Except`: `PyError.typeError` is the
  `TypeError` that src/main.py line 274 raises unconditionally on every
  non-empty content, by comparing the list `room_related_links` with an int.
  `analyze_page_content` therefore never returns a verdict for non-empty
  content, `check_for_updates` propagates the error without touching the
  tracker state, and a monitoring-loop iteration whose fetch succeeds lands in
  the `except` branch of `run_monitoring`.
-/

/-! ### Python string primitives -/

/-- Python `str.lower` restricted to ASCII letters and the Latin-1 uppercase
range (covers every character appearing in the source's indicator lists and
patterns, in particular `Ä`→`ä`). -/
def pyLowerChar (c : Char) : Char :=
  let v := c.toNat
  if (65 ≤ v ∧ v ≤ 90) ∨ (192 ≤ v ∧ v ≤ 222 ∧ v ≠ 215) then Char.ofNat (v + 32) else c

/-- Python `str.lower` on a string. -/
def pyLower (s : List Char) : List Char := s.map pyLowerChar

/-- Python `\s` / `str.strip` whitespace (ASCII part). -/
def isPySpace (c : Char) : Bool :=
  c == ' ' || c == '\t' || c == '\n' || c == '\r' || c == '\x0c' || c == '\x0b'

/-- Python `str.strip()`. -/
def pyStrip (s : List Char) : List Char :=
  ((s.dropWhile isPySpace).reverse.dropWhile isPySpace).reverse

/-- `pat` is a prefix of `hay` (Boolean). -/
def listStartsWith : List Char → List Char → Bool
  | [], _ => true
  | _ :: _, [] => false
  | a :: as, b :: bs => a == b && listStartsWith as bs

/-- Python's substring operator `pat in hay`. -/
def containsSub (pat : List Char) : List Char → Bool
  | [] => listStartsWith pat []
  | hay@(_ :: t) => listStartsWith pat hay || containsSub pat t

/-! ### A small regular-expression engine (Brzozowski derivatives), enough for
the fixed patterns the source feeds to `re.search`. -/

/-- Regular expressions over characters; `cls` is a character class. -/
inductive RE where
  | eps : RE
  | cls : (Char → Bool) → RE
  | seq : RE → RE → RE
  | alt : RE → RE → RE
  | star : RE → RE

/-- The empty language. -/
def RE.none : RE := .cls (fun _ => false)

/-- Does the regex accept the empty string? -/
def RE.nullable : RE → Bool
  | .eps => true
  | .cls _ => false
  | .seq a b => a.nullable && b.nullable
  | .alt a b => a.nullable || b.nullable
  | .star _ => true

/-- Brzozowski derivative with respect to one character. -/
def RE.deriv : RE → Char → RE
  | .eps, _ => RE.none
  | .cls f, c => if f c then .eps else RE.none
  | .seq a b, c =>
      if a.nullable then .alt (.seq (a.deriv c) b) (b.deriv c) else .seq (a.deriv c) b
  | .alt a b, c => .alt (a.deriv c) (b.deriv c)
  | .star a, c => .seq (a.deriv c) (.star a)

/-- Does the regex match some prefix of the string? -/
def RE.matchesPre (r : RE) : List Char → Bool
  | [] => r.nullable
  | c :: cs => r.nullable || (r.deriv c).matchesPre cs

/-- Python `re.search`: the regex matches somewhere inside the string. -/
def reSearch (r : RE) : List Char → Bool
  | [] => r.matchesPre []
  | s@(_ :: t) => r.matchesPre s || reSearch r t

/-- All remainders of the string left after the regex matched a prefix. -/
def RE.matchEnds (r : RE) : List Char → List (List Char)
  | [] => if r.nullable then [[]] else []
  | s@(c :: cs) => (if r.nullable then [s] else []) ++ (r.deriv c).matchEnds cs

/-- Python regex `\w` (ASCII part). -/
def isWordChar (c : Char) : Bool := c.isAlphanum || c == '_'

/-- `\b` is satisfied immediately before a non-word character or at the end. -/
def boundaryAfter : List Char → Bool
  | [] => true
  | c :: _ => !isWordChar c

/-- `re.search` of `\b core \b` where `core` starts with `\d` and ends with a
letter: scan every position whose preceding character is not a word character
(the start of the string counts), and require the remainder after the match to
start with a non-word character (or be empty). -/
def searchWordBounded (core : RE) : Bool → List Char → Bool
  | _, [] => false
  | prevWord, s@(c :: cs) =>
      (!prevWord && (core.matchEnds s).any boundaryAfter) ||
        searchWordBounded core (isWordChar c) cs

/-! Regex building blocks for the source's fixed patterns.  `re.IGNORECASE`
is passed on every search, so a literal character matches up to case. -/

/-- One literal character, case-insensitively (models `re.IGNORECASE`). -/
def litc (c : Char) : RE := .cls (fun d => pyLowerChar d == pyLowerChar c)

/-- A literal string, case-insensitively. -/
def lit (s : List Char) : RE := s.foldr (fun c r => .seq (litc c) r) .eps

/-- `\d`. -/
def reDigit : RE := .cls Char.isDigit

/-- `\s`. -/
def reSpace : RE := .cls isPySpace

/-- `.` (any character but a newline; Python default, no DOTALL). -/
def reDot : RE := .cls (fun c => c != '\n')

/-- `r+`. -/
def rePlus (r : RE) : RE := .seq r (.star r)

/-- `r*`. -/
def reStar (r : RE) : RE := .star r

/-- Sequential composition of a list of regexes. -/
def reCat (rs : List RE) : RE := rs.foldr .seq .eps

/-! ### AvailabilityAnalyzer — src/main.py `STWDOTelegramBot.analyze_page_content` -/

/-- `self.no_rooms_indicators` (src/main.py lines 75-81). -/
def no_rooms_indicators : List (List Char) :=
  ["No results found for the given search criteria".data,
   "no results found".data,
   "keine ergebnisse gefunden".data,
   "keine ergebnisse".data,
   "currently no offers available".data]

/-- `self.positive_room_indicators` (src/main.py lines 84-92). -/
def positive_room_indicators : List (List Char) :=
  ["zimmer".data, "wohnung".data, "wg".data, "frauen-wg".data, "männer-wg".data,
   "dortmund".data, "hagen".data, "iserlohn".data, "soest".data, "bochum".data,
   "bewerbung".data, "bewerben".data, "verfügbar".data,
   "room".data, "flat".data, "apartment".data, "women".data, "men".data,
   "shared flat".data,
   "available".data, "apply".data, "application".data]

/-- `room_offering_patterns` (src/main.py lines 201-209), as regexes. -/
def room_offering_patterns : List RE :=
  [reCat [lit "zimmer".data, rePlus reSpace, lit "in".data, rePlus reSpace,
          rePlus reDigit, lit "er".data, reStar reDot, lit "wg".data],
   reCat [lit "wohnung".data, reStar reDot, lit "dortmund".data],
   reCat [lit "dortmund".data, reStar reDot, lit "zimmer".data],
   lit "frauen-wg".data,
   lit "männer-wg".data,
   reCat [rePlus reDigit, reStar reSpace, lit "zimmer".data, reStar reDot, lit "wg".data],
   reCat [lit "wg".data, reStar reDot, lit "zimmer".data]]

/-- The first four `price_patterns` (src/main.py lines 243-249); the fifth,
`\b\d+\s*euro\b`, needs word boundaries and is handled by `euro_core`. -/
def price_patterns_plain : List RE :=
  [reCat [rePlus reDigit, .cls (fun c => c == '.' || c == ','), rePlus reDigit,
          reStar reSpace, litc '€'],
   reCat [rePlus reDigit, reStar reSpace, litc '€'],
   reCat [litc '€', reStar reSpace, rePlus reDigit],
   reCat [rePlus reDigit, .cls (fun c => c == '.' || c == ','), rePlus reDigit,
          reStar reSpace, lit "EUR".data]]

/-- The interior of the fifth price pattern `\b\d+\s*euro\b`. -/
def euro_core : RE := reCat [rePlus reDigit, reStar reSpace, lit "euro".data]

/-- Terms scanned over each link's `href + ' ' + text` (src/main.py line 231). -/
def link_terms : List (List Char) :=
  ["room".data, "flat".data, "apartment".data, "apply".data, "zimmer".data, "wohnung".data]

/-- The Python exceptions the embedded code can raise. -/
inductive PyError where
  | typeError
  deriving Repr, DecidableEq

/-- The outputs of `BeautifulSoup(content, 'html.parser')` that
`analyze_page_content` consumes: `soup.get_text()`, each `<a href>`'s
(href, text) pair, `len(soup.find_all('form'))`, and
`len(soup.find_all(['input','button','select','textarea']))`.
`BeautifulSoup` is an external library, so its parse is an input of the model. -/
structure Page where
  getText : List Char
  links : List (List Char × List Char)
  formsCount : Nat
  inputElements : Nat

/-- The `analysis` dictionary built by `analyze_page_content`.  The Python
confidence score is a float stepped in halves; `confidence_score2` stores
twice its value so it lives in `Nat` exactly.  No completed record ever
escapes the analyzer — the TypeError at src/main.py line 274 discards the
partially built dictionary — so the type only shapes `CheckResult.analysis`. -/
structure Analysis where
  content_length : Nat
  page_text_length : Nat
  timestamp : List Char
  has_no_rooms_message : Bool
  room_pattern_matches : Nat
  positive_indicators : Nat
  room_related_links : Nat
  forms_count : Nat
  input_elements : Nat
  price_matches : Nat
  confidence_score2 : Nat
  deriving Repr, DecidableEq

/-- src/main.py lines 176-308, `analyze_page_content(self, content)`.
For empty content it returns `(False, "No content to analyze", {})`, modelled
as `.ok (false, none)`.  For non-empty content it computes the signals of
lines 182-251 and the scoring of lines 258-272, and then unconditionally
raises `TypeError` at line 274: `room_related_links` is the LIST built at
lines 227-232 (only the evidence-dict entry at line 234 takes its `len`), and
`if room_related_links > 0:` compares that list with an int, which Python 3
rejects.  The verdict and the return at lines 275-308 are therefore
unreachable, and no `(roomsAvailable, score)` is ever produced for non-empty
content.  The `now` input reaches only the local evidence dictionary (line
190), which the exception discards. -/
def analyze_page_content (content : List Char) (p : Page) (now : List Char) :
    Except PyError (Bool × Option Analysis) :=
  if content.isEmpty then .ok (false, none)
  else
    -- lines 182-251: these signals are computed, then discarded by the raise
    let page_text := pyStrip p.getText
    let page_text_lower := pyLower page_text
    let has_no_rooms_message :=
      no_rooms_indicators.any (fun ind => containsSub (pyLower ind) page_text_lower)
    let room_pattern_matches :=
      (room_offering_patterns.filter (fun r => reSearch r page_text_lower)).length
    let positive_count :=
      (positive_room_indicators.filter (fun t => containsSub t page_text_lower)).length
    let room_related_links :=
      (p.links.filter (fun l =>
        link_terms.any (fun t =>
          containsSub t (pyLower l.1 ++ [' '] ++ pyLower l.2)))).map Prod.fst
    let price_matches :=
      (price_patterns_plain.filter (fun r => reSearch r page_text)).length +
        (if searchWordBounded euro_core false page_text then 1 else 0)
    -- lines 258-272: scoring in half-points, up to the positive-indicator step
    let s1 : Nat := if !has_no_rooms_message then 0 + 6 else 0
    let s2 := if room_pattern_matches > 0 then s1 + 8 else s1
    let s3 :=
      if positive_count ≥ 10 then s2 + 6
      else if positive_count ≥ 5 then s2 + 4
      else if positive_count ≥ 3 then s2 + 2
      else s2
    -- line 274: `if room_related_links > 0:` compares the list
    -- `room_related_links` with an int and raises TypeError
    .error .typeError

/-! ### ChangeTracker — src/main.py `STWDOTelegramBot.check_for_updates` -/

/-- The bot's tracking state: `self.last_hash` and `self.last_rooms_status`
(both initialised to `None` in `__init__`). -/
structure TrackerState where
  last_hash : Option (List Char)
  last_rooms_status : Option Bool
  deriving Repr, DecidableEq

/-- The message variants `check_for_updates` can return; each constructor tags
one of the f-strings built at src/main.py lines 313, 327, 329, 344, 346, 351,
363 (the status details appended to them are a rendering of the analysis). -/
inductive CheckMsg where
  | noContentRetrieved
  | roomsFoundOnStartup
  | initialScanNoRooms
  | newRoomsStatusChanged
  | roomsContentUpdated
  | websiteUpdatedPossibleRooms
  | noChangesDetected
  deriving Repr, DecidableEq

/-- The triple `check_for_updates` returns. -/
structure CheckResult where
  shouldNotify : Bool
  msg : CheckMsg
  analysis : Option Analysis
  deriving Repr, DecidableEq

/-- src/main.py lines 310-363, `check_for_updates(self, content)`.  For
empty content it returns `(False, "No content retrieved", None)` leaving the
state untouched.  For non-empty content it calls `analyze_page_content` at
line 316 as its first action; the analyzer's TypeError propagates out of the
method, so the `.ok` branch below — which embeds lines 317-363 as written
(hash, first-run baseline recording, notify branches, state updates) — is in
fact unreachable and the tracker state is returned unchanged. -/
def check_for_updates (md5 : List Char → List Char) (st : TrackerState)
    (content : List Char) (p : Page) (now : List Char) :
    Except PyError CheckResult × TrackerState :=
  if content.isEmpty then (.ok ⟨false, .noContentRetrieved, none⟩, st)
  else
    match analyze_page_content content p now with
    | .error e => (.error e, st)
    | .ok ar =>
        let rooms_available := ar.1
        let analysis := ar.2
        let content_hash := md5 content
        match st.last_hash with
        | none =>
            -- first run: record baseline, notify iff rooms were found on startup
            let st' : TrackerState := ⟨some content_hash, some rooms_available⟩
            if rooms_available then (.ok ⟨true, .roomsFoundOnStartup, analysis⟩, st')
            else (.ok ⟨false, .initialScanNoRooms, analysis⟩, st')
        | some last =>
            let content_changed : Bool := content_hash != last
            let rooms_status_changed : Bool := st.last_rooms_status != some rooms_available
            let has_no_rooms := match analysis with
              | some a => a.has_no_rooms_message
              | none => true   -- `.get("has_no_rooms_message", True)`
            let st' : TrackerState := ⟨some content_hash, some rooms_available⟩
            if rooms_available && (content_changed || rooms_status_changed) then
              if rooms_status_changed then (.ok ⟨true, .newRoomsStatusChanged, analysis⟩, st')
              else (.ok ⟨true, .roomsContentUpdated, analysis⟩, st')
            else if content_changed && !has_no_rooms then
              (.ok ⟨true, .websiteUpdatedPossibleRooms, analysis⟩, st')
            else
              (.ok ⟨false, .noChangesDetected, analysis⟩, st')

/-! ### MonitorLoop — src/main.py `STWDOTelegramBot.run_monitoring` -/

/-- What the environment delivers to one iteration of the monitoring loop:
a fetched page (possibly empty, which `if content:` treats like `None`),
a failed fetch (`fetch_page_content` returned `None`), or an unexpected
exception raised inside the iteration's `try` block. -/
inductive LoopEvent where
  | fetched (content : List Char) (p : Page) (now : List Char)
  | fetchFailed
  | unexpectedError

/-- The notifications one loop iteration hands to `send_telegram_message`. -/
inductive Notif where
  | alert (msg : CheckMsg)
  | fetchTroubleWarning
  | errorAlert
  deriving Repr, DecidableEq

/-- The loop-local mutable variables of `run_monitoring`. -/
structure LoopState where
  consecutive_errors : Nat
  total_checks : Nat
  tracker : TrackerState
  deriving Repr, DecidableEq

/-- One iteration of the `while True` body of `run_monitoring`
(src/main.py lines 394-469): `max_consecutive_errors = 10`.  The fetch-failure
branch (lines 437-444, also taken for an empty fetched string since
`if content:` is falsy) warns exactly when the counter becomes 5 and does not
reset it.  A fetched non-empty page goes through `check_for_updates`; when it
raises — which, because of the analyzer's line-274 TypeError, is every time —
control lands in the `except Exception` branch at line 450, which increments
the counter and, at 10, sends one error alert and resets it.  The success
path of lines 403-435 (alert on notify, counter reset) is embedded as written
but unreachable. -/
def loopStep (md5 : List Char → List Char) (ls : LoopState) (ev : LoopEvent) :
    LoopState × List Notif :=
  let total := ls.total_checks + 1
  match ev with
  | .fetched content p now =>
      if content.isEmpty then
        let ce := ls.consecutive_errors + 1
        (⟨ce, total, ls.tracker⟩, if ce = 5 then [.fetchTroubleWarning] else [])
      else
        match check_for_updates md5 ls.tracker content p now with
        | (.ok r, tr) =>
            (⟨0, total, tr⟩, if r.shouldNotify then [.alert r.msg] else [])
        | (.error _, tr) =>
            let ce := ls.consecutive_errors + 1
            if ce ≥ 10 then (⟨0, total, tr⟩, [.errorAlert])
            else (⟨ce, total, tr⟩, [])
  | .fetchFailed =>
      let ce := ls.consecutive_errors + 1
      (⟨ce, total, ls.tracker⟩, if ce = 5 then [.fetchTroubleWarning] else [])
  | .unexpectedError =>
      let ce := ls.consecutive_errors + 1
      if ce ≥ 10 then (⟨0, total, ls.tracker⟩, [.errorAlert])
      else (⟨ce, total, ls.tracker⟩, [])

/-- Run the loop over a sequence of events, collecting all notifications. -/
def runLoop (md5 : List Char → List Char) (ls : LoopState) :
    List LoopEvent → LoopState × List Notif
  | [] => (ls, [])
  | ev :: evs =>
      let r := loopStep md5 ls ev
      let rest := runLoop md5 r.1 evs
      (rest.1, r.2 ++ rest.2)

/-! ### Notifier — src/main.py `STWDOTelegramBot.send_telegram_message` -/

/-- src/main.py lines 100-120, `send_telegram_message`.  The outcome of each
`requests.post` attempt is an oracle `outcome : Nat → Bool` (`true` = the post
succeeded; any exception is `false` and is caught by the `except` clause).
`maxRetries = 3`; `time.sleep(2)` runs after a failed attempt `i` with
`i < maxRetries - 1`.  Returns (result, attempts made, sleeps taken);
`remaining` is the number of loop iterations left and `i` the attempt index. -/
def sendLoop (outcome : Nat → Bool) (maxRetries : Nat) :
    Nat → Nat → Bool × Nat × Nat
  | 0, _ => (false, 0, 0)
  | remaining + 1, i =>
      if outcome i then (true, 1, 0)
      else
        let rest := sendLoop outcome maxRetries remaining (i + 1)
        let slept := if i < maxRetries - 1 then 1 else 0
        (rest.1, rest.2.1 + 1, rest.2.2 + slept)

/-- `send_telegram_message` with `max_retries = 3`. -/
def send_telegram_message (outcome : Nat → Bool) : Bool × Nat × Nat :=
  sendLoop outcome 3 3 0

/-! ### src/monitor.py `DormMonitor` and src/app.py `/configure` route -/

/-- Log levels used by `DormMonitor.add_log`. -/
inductive LogLevel where
  | info
  | warning
  | error
  | success
  deriving Repr, DecidableEq

/-- One entry of `self.logs`. -/
structure LogEntry where
  timestamp : List Char
  message : String
  level : LogLevel
  deriving Repr, DecidableEq

/-- src/monitor.py lines 72-93, `add_log`: append, then drop the oldest entry
when the buffer exceeds 100. -/
def addLog (logs : List LogEntry) (e : LogEntry) : List LogEntry :=
  let l := logs ++ [e]
  if l.length > 100 then l.drop 1 else l

/-- The values `self.last_check_status` takes in src/monitor.py. -/
inductive CheckStatus where
  | neverChecked
  | changeDetected
  | noChangesDetected
  | connectionError
  | otherError
  deriving Repr, DecidableEq

/-- The mutable fields of `DormMonitor` (src/monitor.py lines 18-30); `bot` is
`none` for Python `None` and `some ()` for the `"configured"` marker. -/
structure MonitorState where
  url : List Char
  bot_token : List Char
  chat_id : List Char
  check_interval : Int
  previous_hash : List Char
  is_running : Bool
  logs : List LogEntry
  bot : Option Unit
  last_check_time : Option (List Char)
  last_check_status : CheckStatus
  deriving Repr, DecidableEq

/-- The state of a fresh `DormMonitor()`. -/
def DormMonitor_init : MonitorState :=
  { url := [], bot_token := [], chat_id := [], check_interval := 30
    previous_hash := [], is_running := false, logs := [], bot := none
    last_check_time := none, last_check_status := .neverChecked }

/-- src/monitor.py lines 32-45, `DormMonitor.configure`: stores the fields,
clamps the interval to `max(10, check_interval)`, sets the bot marker when
both credentials are truthy, and logs a success entry.  It has no failure
path. -/
def DormMonitor_configure (st : MonitorState) (url bot_token chat_id : List Char)
    (check_interval : Int) (now : List Char) : MonitorState :=
  { st with
    url := url
    bot_token := bot_token
    chat_id := chat_id
    check_interval := max 10 check_interval
    bot := if ¬bot_token.isEmpty ∧ ¬chat_id.isEmpty then some () else none
    logs := addLog st.logs ⟨now, "Configuration updated successfully", .success⟩ }

/-- The flash message a POST to `/configure` produces (src/app.py 26-59). -/
inductive ConfigFlash where
  | urlRequired
  | botTokenRequired
  | chatIdRequired
  | intervalTooSmall
  | invalidInterval
  | updated
  deriving Repr, DecidableEq

/-- src/app.py lines 26-59, the `/configure` route.  Form fields arrive as raw
strings and are `.strip()`ped; `check_interval` is `int(...)` of the raw form
value, modelled as `none` when the parse raises `ValueError` (which the route
turns into the invalid-interval flash before any other validation, since the
`int()` call precedes the `if` chain).  On a validation failure the route
flashes an error and leaves the monitor untouched; otherwise it calls
`DormMonitor.configure`. -/
def configure_route (st : MonitorState) (urlForm botTokenForm chatIdForm : List Char)
    (checkIntervalForm : Option Int) (now : List Char) : ConfigFlash × MonitorState :=
  match checkIntervalForm with
  | none => (.invalidInterval, st)
  | some check_interval =>
      let url := pyStrip urlForm
      let bot_token := pyStrip botTokenForm
      let chat_id := pyStrip chatIdForm
      if url.isEmpty then (.urlRequired, st)
      else if bot_token.isEmpty then (.botTokenRequired, st)
      else if chat_id.isEmpty then (.chatIdRequired, st)
      else if check_interval < 10 then (.intervalTooSmall, st)
      else (.updated, DormMonitor_configure st url bot_token chat_id check_interval now)

/-- What one `requests.get` of `check_website` delivers: the page (whose
`soup.get_text()` is `pageText`), a `RequestException` (network error,
timeout, non-success status), or any other exception raised inside the `try`
block (e.g. from parsing). -/
inductive FetchOutcome where
  | ok (pageText : List Char)
  | requestError
  | otherError

/-- src/monitor.py lines 123-178, `DormMonitor.check_website`.  `sendOk`
abstracts the outcome of `send_telegram_message`'s network call (that method
catches its own exceptions and only returns a Bool, src/monitor.py 100-121).
Returns the method's Bool result and the updated state.  `previous_hash` is
assigned only at line 162, which only a successful fetch reaches. -/
def check_website (md5 : List Char → List Char) (sendOk : Bool) (st : MonitorState)
    (ev : FetchOutcome) (now : List Char) : Bool × MonitorState :=
  if st.url.isEmpty then
    (false, { st with logs := addLog st.logs ⟨now, "Cannot check website: URL not configured", .error⟩ })
  else
    match ev with
    | .requestError =>
        (false, { st with
          logs := addLog st.logs ⟨now, "Could not connect to the website", .error⟩
          last_check_time := some now
          last_check_status := .connectionError })
    | .otherError =>
        (false, { st with
          logs := addLog st.logs ⟨now, "An unexpected error occurred", .error⟩
          last_check_time := some now
          last_check_status := .otherError })
    | .ok pageText =>
        let current_hash := md5 pageText
        let st1 := { st with last_check_time := some now }
        if ¬st.previous_hash.isEmpty ∧ current_hash ≠ st.previous_hash then
          -- change detected: log, set status, send the Telegram notification
          let st2 := { st1 with
            logs := addLog st1.logs ⟨now, "Change detected on the website!", .success⟩
            last_check_status := .changeDetected }
          let st3 :=
            if st2.bot_token.isEmpty ∨ st2.chat_id.isEmpty then
              { st2 with logs := addLog st2.logs ⟨now, "Cannot send Telegram message: Bot not configured", .error⟩ }
            else if sendOk then
              { st2 with logs := addLog st2.logs ⟨now, "Telegram notification sent successfully", .success⟩ }
            else
              { st2 with logs := addLog st2.logs ⟨now, "Error sending Telegram message", .error⟩ }
          (true, { st3 with previous_hash := current_hash })
        else
          let st2 := { st1 with last_check_status := .noChangesDetected }
          let st3 :=
            if st.previous_hash.isEmpty then
              { st2 with logs := addLog st2.logs ⟨now, "Initial website content captured", .info⟩ }
            else
              { st2 with logs := addLog st2.logs ⟨now, "No changes detected", .info⟩ }
          (true, { st3 with previous_hash := current_hash })

/-! ### Concrete inputs used by witnesses and counterexamples -/

/-- A stand-in for the external `hashlib.md5` (the code only compares hashes
for equality, so any function is a legal instantiation). -/
def idHash : List Char → List Char := fun l => l

/-- A page whose text is a single room-offering pattern match. -/
def pageFrauenWG : Page :=
  { getText := "frauen-wg".data, links := [], formsCount := 0, inputElements := 0 }

/-- A page showing only the "no results" sentinel phrase. -/
def pageNoResultsOnly : Page :=
  { getText := "No results found for the given search criteria".data
    links := [], formsCount := 0, inputElements := 0 }

/-- A `DormMonitor` state with a configured URL and credentials. -/
def monitorConfigured : MonitorState :=
  { DormMonitor_init with url := "u".data, bot_token := "t".data, chat_id := "c".data }

/-! ### Helper lemmas -/

/-- On non-empty content the analyzer always raises the line-274 TypeError. -/
lemma analyze_page_content_raises (content : List Char) (p : Page) (now : List Char)
    (h : content.isEmpty = false) :
    analyze_page_content content p now = .error .typeError := by
  unfold analyze_page_content
  rw [if_neg (by simp [h])]

/-- On non-empty content `check_for_updates` propagates the analyzer's
TypeError and leaves the tracker state unchanged. -/
lemma check_for_updates_raises (md5 : List Char → List Char) (st : TrackerState)
    (content : List Char) (p : Page) (now : List Char) (h : content.isEmpty = false) :
    check_for_updates md5 st content p now = (.error .typeError, st) := by
  unfold check_for_updates
  rw [if_neg (by simp [h]), analyze_page_content_raises content p now h]

/-- Running the loop over `n` consecutive fetch failures from failure counter
`c`: the counter just accumulates, and the single escalation is emitted while
crossing 5. -/
lemma runLoop_replicate_fetchFailed (md5 : List Char → List Char) (tr : TrackerState) :
    ∀ (n c t : Nat), runLoop md5 ⟨c, t, tr⟩ (List.replicate n LoopEvent.fetchFailed) =
      (⟨c + n, t + n, tr⟩,
        if c < 5 ∧ 5 ≤ c + n then [Notif.fetchTroubleWarning] else []) := by
  intro n
  induction n with
  | zero =>
    intro c t
    have h : ¬(c < 5 ∧ 5 ≤ c + 0) := by omega
    simp [runLoop, h]
  | succ n ih =>
    intro c t
    simp only [List.replicate_succ, runLoop, loopStep]
    rw [ih (c + 1) (t + 1)]
    have harith : c + 1 + n = c + (n + 1) := by omega
    have harith2 : t + 1 + n = t + (n + 1) := by omega
    rw [harith, harith2]
    split_ifs with h1 h2 h3 h3' <;> simp_all <;> omega

/-- `add_log` always leaves the appended entry as the newest one. -/
lemma addLog_getLast (logs : List LogEntry) (e : LogEntry) :
    (addLog logs e).getLast? = some e := by
  simp only [addLog]
  split
  · next h =>
      have hlen : 1 ≤ logs.length := by
        simp at h
        omega
      rw [List.drop_append_of_le_length hlen]
      exact List.getLast?_concat _
  · exact List.getLast?_concat _

/-! ### Claim theorems -/

/-- C1 (counterexample): with no prior state (`last_hash = None`,
`last_rooms_status = None`) and non-empty content, `check_for_updates` does
not "only record the baseline state": it raises the analyzer's TypeError
(src/main.py line 274) before the baseline assignments of lines 322-324, and
both tracker fields remain `None`. -/
theorem check_for_updates_first_cycle_cx :
    check_for_updates idHash ⟨none, none⟩ "frauen-wg".data pageFrauenWG [] =
      (.error .typeError, ⟨none, none⟩) := rfl

/-- C1 (amended): with no prior state, `check_for_updates` indeed never
returns shouldNotify = true — but it also never records a baseline: the
tracker state comes back unchanged, and the result is shouldNotify = false
("No content retrieved") for empty content and the propagated TypeError for
non-empty content. -/
theorem check_for_updates_first_cycle (md5 : List Char → List Char) (content : List Char)
    (p : Page) (now : List Char) :
    (check_for_updates md5 ⟨none, none⟩ content p now).2 = ⟨none, none⟩ ∧
      (check_for_updates md5 ⟨none, none⟩ content p now).1 =
        (if content.isEmpty then .ok ⟨false, .noContentRetrieved, none⟩
         else .error .typeError) := by
  by_cases h : content.isEmpty
  · constructor <;> simp [check_for_updates, h]
  · have hr := check_for_updates_raises md5 ⟨none, none⟩ content p now (by simpa using h)
    rw [hr]
    simp [h]

/-- C2 (counterexample): 5 consecutive fetch failures emit exactly one
escalation notification, but the consecutive-failure counter then holds 5, not
0 — the claimed immediate reset does not happen. -/
theorem run_monitoring_escalation_cx :
    (runLoop idHash ⟨0, 0, ⟨none, none⟩⟩ (List.replicate 5 LoopEvent.fetchFailed)).2 =
        [Notif.fetchTroubleWarning] ∧
      (runLoop idHash ⟨0, 0, ⟨none, none⟩⟩
          (List.replicate 5 LoopEvent.fetchFailed)).1.consecutive_errors = 5 ∧
      (runLoop idHash ⟨0, 0, ⟨none, none⟩⟩
          (List.replicate 5 LoopEvent.fetchFailed)).1.consecutive_errors ≠ 0 := by decide

/-- C2 (amended): from a fresh failure counter, any run of `n ≥ 5` consecutive
fetch failures produces exactly one escalation notification (emitted when the
counter reaches exactly 5), and the counter is not reset by the escalation —
it ends at `n`.  (The success-path reset at src/main.py line 435 is
unreachable: a completed fetch raises inside `check_for_updates` and lands in
the exception branch, which resets only at its own threshold of 10.) -/
theorem run_monitoring_escalation (md5 : List Char → List Char) (tr : TrackerState)
    (t n : Nat) (h : 5 ≤ n) :
    runLoop md5 ⟨0, t, tr⟩ (List.replicate n LoopEvent.fetchFailed) =
      (⟨n, t + n, tr⟩, [Notif.fetchTroubleWarning]) := by
  rw [runLoop_replicate_fetchFailed]
  rw [if_pos (show 0 < 5 ∧ 5 ≤ 0 + n by omega)]
  norm_num

/-- C2 (witness): the amended escalation rule over 7 consecutive failures. -/
theorem run_monitoring_escalation_wit :
    runLoop idHash ⟨0, 0, ⟨none, none⟩⟩ (List.replicate 7 LoopEvent.fetchFailed) =
      (⟨7, 0 + 7, ⟨none, none⟩⟩, [Notif.fetchTroubleWarning]) :=
  run_monitoring_escalation idHash ⟨none, none⟩ 0 7 (by decide)

/-- C3 (counterexample): `DormMonitor.configure` called with an interval of 5
(below the 10-second floor) and an empty URL does not fail: it is accepted,
the interval is silently clamped to 10, and a success log entry is written.
No `ConfigurationError` exists anywhere in the code. -/
theorem configure_validation_cx :
    (DormMonitor_configure DormMonitor_init [] "t".data "c".data 5 []).check_interval = 10 ∧
      (DormMonitor_configure DormMonitor_init [] "t".data "c".data 5 []).logs.map
          LogEntry.level = [LogLevel.success] := by decide

/-- C3 (amended): rejection lives in the web layer, not in
`DormMonitor.configure`.  The `/configure` route answers with an error flash
and leaves the monitor unchanged when the stripped URL, bot token or chat id
is empty, when the interval is below 10, or when the interval fails to parse;
`DormMonitor.configure` itself never fails — it clamps the interval to
`max 10 interval` and logs success unconditionally. -/
theorem configure_validation (st : MonitorState) (u tk ch : List Char) (iv : Int)
    (now : List Char) :
    (((pyStrip u).isEmpty = true ∨ (pyStrip tk).isEmpty = true ∨
        (pyStrip ch).isEmpty = true ∨ iv < 10) →
      (configure_route st u tk ch (some iv) now).2 = st ∧
        (configure_route st u tk ch (some iv) now).1 ≠ ConfigFlash.updated) ∧
      configure_route st u tk ch none now = (ConfigFlash.invalidInterval, st) ∧
      (DormMonitor_configure st u tk ch iv now).check_interval = max 10 iv ∧
      (DormMonitor_configure st u tk ch iv now).logs.getLast? =
        some ⟨now, "Configuration updated successfully", LogLevel.success⟩ := by
  refine ⟨?_, rfl, rfl, addLog_getLast _ _⟩
  intro hbad
  unfold configure_route
  dsimp only
  split_ifs with h1 h2 h3 h4 <;> simp_all

/-- C3 (witness): the route rejects an empty URL leaving the monitor
untouched, and `DormMonitor.configure` clamps an interval of 5 to
`max 10 5`. -/
theorem configure_validation_wit :
    (configure_route DormMonitor_init "".data "t".data "c".data (some 30) []).2 =
        DormMonitor_init ∧
      (configure_route DormMonitor_init "".data "t".data "c".data (some 30) []).1 ≠
        ConfigFlash.updated ∧
      (DormMonitor_configure DormMonitor_init "u".data "t".data "c".data 5
          []).check_interval = max 10 5 := by
  refine ⟨?_, ?_, ?_⟩
  · exact ((configure_validation DormMonitor_init "".data "t".data "c".data 30 []).1
      (Or.inl (by decide))).1
  · exact ((configure_validation DormMonitor_init "".data "t".data "c".data 30 []).1
      (Or.inl (by decide))).2
  · exact (configure_validation DormMonitor_init "u".data "t".data "c".data 5 []).2.2.1

/-- C4 (counterexample): on a page whose text contains the phrase "No results
found for the given search criteria", `analyze_page_content` does not return
roomsAvailable = false — it raises TypeError at src/main.py line 274 (the
list `room_related_links` compared with an int) and returns no verdict at
all. -/
theorem analyze_no_results_phrase_cx :
    containsSub "No results found for the given search criteria".data
        pageNoResultsOnly.getText = true ∧
      analyze_page_content "x".data pageNoResultsOnly [] = .error .typeError :=
  ⟨by decide, rfl⟩

/-- C4 (amended): for non-empty content whose (lowered, stripped) page text
contains the phrase, the analyzer never reaches its decision logic: it raises
the line-274 TypeError — as it does for every non-empty content — so no
roomsAvailable verdict is returned; only empty content yields
roomsAvailable = false. -/
theorem analyze_no_results_phrase (content : List Char) (p : Page) (now : List Char)
    (hne : content.isEmpty = false)
    (hphrase : containsSub (pyLower "No results found for the given search criteria".data)
      (pyLower (pyStrip p.getText)) = true) :
    analyze_page_content content p now = .error .typeError :=
  analyze_page_content_raises content p now hne

/-- C4 (witness): the amended rule on the sentinel-phrase page. -/
theorem analyze_no_results_phrase_wit :
    analyze_page_content "exhibit".data pageNoResultsOnly [] = .error .typeError :=
  analyze_no_results_phrase "exhibit".data pageNoResultsOnly [] (by decide) (by decide)

/-- C5 (code bug): the transition rule is implemented verbatim at src/main.py
lines 340-346 and is plainly the intent, but it is dead code: with prior
state (fingerprint "old", available = false) and new non-empty content
"frauen-wg" (fingerprint differs, page text a room-offering pattern),
`check_for_updates` raises the analyzer's line-274 TypeError and returns
nothing — the shouldNotify = true "NEW ROOMS AVAILABLE" result the claim
asserts is never produced, and the state is left unchanged. -/
theorem check_for_updates_transition :
    check_for_updates idHash ⟨some "old".data, some false⟩ "frauen-wg".data
        pageFrauenWG [] = (.error .typeError, ⟨some "old".data, some false⟩) := rfl

/-- C6 (code bug): the idempotence/no-flap logic is implemented at
src/main.py lines 331-363 and stated by the spec, but it is dead code:
feeding the same content twice, the second call (like the first) raises the
analyzer's line-274 TypeError instead of returning shouldNotify = false, and
no state is recorded in between. -/
theorem check_for_updates_idempotent :
    check_for_updates idHash
        (check_for_updates idHash ⟨none, none⟩ "frauen-wg".data pageFrauenWG []).2
        "frauen-wg".data pageFrauenWG [] =
      (.error .typeError, ⟨none, none⟩) := rfl

/-- C7: the analyzer is deterministic in the strong sense that its entire
outcome is a function of the content and its parse alone — the clock input
never reaches any output (for non-empty content both calls raise the same
TypeError before the evidence record escapes; for empty content both return
the same triple), so repeated calls on identical content always yield
identical results and no hidden mutable state is involved. -/
theorem analyze_deterministic (content : List Char) (p : Page) (n1 n2 : List Char) :
    analyze_page_content content p n1 = analyze_page_content content p n2 := by
  by_cases h : content.isEmpty <;> simp [analyze_page_content, h]

/-- C8: `send_telegram_message` makes at most 3 attempts, returns true exactly
when one of the first three attempts succeeds (stopping at the first
success), returns false after all 3 fail, and sleeps the fixed backoff after
every failed non-final attempt; being a total function of the attempt
outcomes, no exception escapes it. -/
theorem send_telegram_retry_policy (outcome : Nat → Bool) :
    (send_telegram_message outcome).2.1 ≤ 3 ∧
      (send_telegram_message outcome).1 = (outcome 0 || outcome 1 || outcome 2) ∧
      send_telegram_message outcome =
        if outcome 0 then (true, 1, 0)
        else if outcome 1 then (true, 2, 1)
        else if outcome 2 then (true, 3, 2)
        else (false, 3, 2) := by
  cases h0 : outcome 0 <;> cases h1 : outcome 1 <;> cases h2 : outcome 2 <;>
    simp [send_telegram_message, sendLoop, h0, h1, h2]

/-- C9 (code bug): the always-update invariant is the evident intent of
src/main.py lines 322-324, 336 and 358, but on every call with non-empty
content `check_for_updates` raises the analyzer's line-274 TypeError before
reaching any of those assignments: the call returns the error with the
tracker state unchanged, so `last_hash` and `last_rooms_status` are never
updated. -/
theorem check_for_updates_never_updates_state (md5 : List Char → List Char)
    (st : TrackerState) (content : List Char) (p : Page) (now : List Char)
    (h : content.isEmpty = false) :
    check_for_updates md5 st content p now = (.error .typeError, st) :=
  check_for_updates_raises md5 st content p now h

/-- C9 (witness): the never-updated state at a concrete call. -/
theorem check_for_updates_never_updates_state_wit :
    check_for_updates idHash ⟨none, none⟩ "x".data pageNoResultsOnly [] =
      (.error .typeError, ⟨none, none⟩) :=
  check_for_updates_never_updates_state idHash ⟨none, none⟩ "x".data
    pageNoResultsOnly [] (by decide)

/-- C10: a failed check is atomic — on a request error or any other exception
`check_website` returns false and leaves `previous_hash` untouched (likewise
when the URL is unconfigured), and only a cycle whose fetch succeeds returns
true and overwrites `previous_hash` with the fresh content hash. -/
theorem check_website_failed_fetch_atomic (md5 : List Char → List Char) (sendOk : Bool)
    (st : MonitorState) (now : List Char) :
    ((check_website md5 sendOk st FetchOutcome.requestError now).1 = false ∧
      (check_website md5 sendOk st FetchOutcome.requestError now).2.previous_hash =
        st.previous_hash) ∧
    ((check_website md5 sendOk st FetchOutcome.otherError now).1 = false ∧
      (check_website md5 sendOk st FetchOutcome.otherError now).2.previous_hash =
        st.previous_hash) ∧
    (∀ pageText, st.url.isEmpty = false →
      (check_website md5 sendOk st (FetchOutcome.ok pageText) now).1 = true ∧
        (check_website md5 sendOk st (FetchOutcome.ok pageText) now).2.previous_hash =
          md5 pageText) ∧
    (st.url.isEmpty = true →
      ∀ ev, (check_website md5 sendOk st ev now).1 = false ∧
        (check_website md5 sendOk st ev now).2.previous_hash = st.previous_hash) := by
  refine ⟨?_, ?_, ?_, ?_⟩
  · unfold check_website
    split <;> simp
  · unfold check_website
    split <;> simp
  · intro pageText hurl
    unfold check_website
    rw [if_neg (by simp [hurl])]
    dsimp only
    constructor
    · split <;> rfl
    · split <;> rfl
  · intro hurl ev
    unfold check_website
    rw [if_pos (by simp [hurl])]
    simp

/-- C10 (witness): a successful fetch on a configured monitor updates the
stored hash. -/
theorem check_website_failed_fetch_atomic_wit :
    (check_website idHash true monitorConfigured (FetchOutcome.ok "hello".data) []).1 =
        true ∧
      (check_website idHash true monitorConfigured
          (FetchOutcome.ok "hello".data) []).2.previous_hash = idHash "hello".data :=
  (check_website_failed_fetch_atomic idHash true monitorConfigured []).2.2.1
    "hello".data (by decide)
